import Mathlib

/-!
Shallow embedding of the conversational risk-assessment engine of the
SIH backend: the NLP configuration (`app/nlp_config.py`), the synonym
index (`app/nlp_models.py`), the classification and distress services
(`app/nlp_services.py`) and the dialogue session manager
(`app/advanced_chatbot.py`).

External capabilities are parameters: a `Thesaurus` stands for the
WordNet lookup behind `get_synonyms`, and a `Backend` stands for one
classification pipeline call, returning either a (label, score) pair or
the message of the exception it raised.  Scores are exact rationals;
Python's `round` (round half to even) is modelled on rationals.
-/

/-- One thesaurus lookup: `synonyms(word)` as a list of words
(`wordnet.synsets` / lemma names in `get_synonyms`). -/
def Thesaurus : Type := String → List String

/-- One classification-pipeline call: `.ok (label, score)` on success,
`.error msg` when the call raises. -/
def Backend : Type := String → Except String (String × ℚ)

/-- `str.lower()` (ASCII case folding). -/
def strLower (s : String) : String := ⟨s.data.map Char.toLower⟩

/-- `needle` is a prefix of `hay` (character lists). -/
def listPrefix : List Char → List Char → Bool
  | [], _ => true
  | _ :: _, [] => false
  | a :: as, b :: bs => a == b && listPrefix as bs

/-- `needle in hay` for character lists: Python substring containment. -/
def listInfix (needle : List Char) : List Char → Bool
  | [] => listPrefix needle []
  | b :: bs => listPrefix needle (b :: bs) || listInfix needle bs

/-- Python's `needle in hay` on strings (substring containment). -/
def strContains (hay needle : String) : Bool :=
  listInfix needle.data hay.data

/-- `NLPSettings.urgent_keywords` (`app/nlp_config.py`). -/
def urgent_keywords : List String :=
  ["suicide", "kill myself", "ending it all", "can't go on",
   "don't want to live", "hopeless", "no way out",
   "hurting myself", "want to die", "end it all"]

/-- `NLPSettings.severe_emotions` (`app/nlp_config.py`). -/
def severe_emotions : List String :=
  ["sadness", "anger", "fear", "disgust", "shame",
   "guilt", "hopelessness", "despair", "rage"]

/-- `NLPSettings.distress_confidence_threshold` (`app/nlp_config.py`). -/
def distress_confidence_threshold : ℚ := 85/100

/-- `get_synonyms(word)` (`app/nlp_models.py`): lemma names of the
word's synsets, lowercased. -/
def get_synonyms (th : Thesaurus) (word : String) : List String :=
  (th word).map strLower

/-- `is_synonym_in_set(label, ref_set)` (`app/nlp_models.py`): the
lowercased label is literally in the reference set, or its live synonym
expansion intersects the reference set. -/
def is_synonym_in_set (th : Thesaurus) (label : String) (ref_set : List String) : Bool :=
  let label_lower := strLower label
  if ref_set.contains label_lower then true
  else (get_synonyms th label_lower).any (fun s => ref_set.contains s)

/-- `{label, score, confidence}` as returned by `analyze_sentiment` /
`analyze_emotion` (`app/nlp_services.py`); `error` is the extra key set
on the exception path. -/
structure ClassificationResult where
  label : String
  score : ℚ
  confidence : String
  error : Option String
deriving DecidableEq, Repr

/-- The confidence bucket of `analyze_sentiment` / `analyze_emotion`:
`"high" if score > 0.8 else "medium" if score > 0.6 else "low"`. -/
def confBucket (score : ℚ) : String :=
  if score > 8/10 then "high" else if score > 6/10 then "medium" else "low"

/-- `analyze_sentiment(text)` (`app/nlp_services.py`): on success the
pipeline's label/score with the derived confidence bucket; on any
exception the neutral default with the error message recorded. -/
def analyze_sentiment (sb : Backend) (text : String) : ClassificationResult :=
  match sb text with
  | .ok (l, s) => ⟨l, s, confBucket s, none⟩
  | .error e => ⟨"neutral", 1/2, "low", some e⟩

/-- `analyze_emotion(text)` (`app/nlp_services.py`): same shape as
`analyze_sentiment`, over the emotion pipeline. -/
def analyze_emotion (eb : Backend) (text : String) : ClassificationResult :=
  match eb text with
  | .ok (l, s) => ⟨l, s, confBucket s, none⟩
  | .error e => ⟨"neutral", 1/2, "low", some e⟩

/-- Python's `round` to an integer on an exact rational: round half to
even (banker's rounding). -/
def roundHalfEven (q : ℚ) : ℤ :=
  let n := ⌊q⌋
  let f := q - n
  if f < 1/2 then n
  else if 1/2 < f then n + 1
  else if n % 2 = 0 then n else n + 1

/-- Python's `round(x, 2)` on an exact rational. -/
def round2 (q : ℚ) : ℚ := (roundHalfEven (q * 100) : ℚ) / 100

/-- Python's `f"{x:.2f}"` on an exact rational (used inside `reason`
strings of `analyze_distress`). -/
def fmt2 (q : ℚ) : String :=
  let n := roundHalfEven (q * 100)
  let whole := n / 100
  let frac := (n % 100).toNat
  toString whole ++ "." ++ (if frac < 10 then "0" ++ toString frac else toString frac)

/-- The dict returned by `analyze_distress` (`app/nlp_services.py`). -/
structure DistressResult where
  is_urgent : Bool
  reason : String
  confidence : ℚ
  recommendation : String
deriving DecidableEq, Repr

/-- Step 1 of `analyze_distress`: the first urgent keyword (declaration
order) contained in the lowercased text, if any. -/
def firstMatch (lower_text : String) : Option String :=
  urgent_keywords.find? (fun k => strContains lower_text k)

/-- `analyze_distress(text)` (`app/nlp_services.py`): keyword rule,
then very-negative-sentiment rule, then severe-emotion rule, else the
non-urgent default. -/
def analyze_distress (sb eb : Backend) (text : String) : DistressResult :=
  match firstMatch (strLower text) with
  | some keyword =>
      ⟨true, "Detected urgent keyword: '" ++ keyword ++ "'", 9/10, "Seek immediate help"⟩
  | none =>
      let sentiment := analyze_sentiment sb text
      let emotion := analyze_emotion eb text
      if ["negative", "neg"].contains (strLower sentiment.label) = true ∧ sentiment.score > 9/10 then
        ⟨true, "Very negative sentiment detected (score: " ++ fmt2 sentiment.score ++ ")",
         sentiment.score, "Seek immediate help"⟩
      else if severe_emotions.contains (strLower emotion.label) = true ∧
          emotion.score > distress_confidence_threshold then
        ⟨true, "Strong negative emotion detected: " ++ emotion.label ++
           " (score: " ++ fmt2 emotion.score ++ ")",
         emotion.score, "Seek immediate help"⟩
      else ⟨false, "No urgent distress detected.", 1/10, "Continue monitoring"⟩

/-- The dict returned by `calculate_risk_score` (`app/nlp_services.py`);
`sentiment_risk` / `emotion_risk` are `none` when the key is absent from
the returned dict (no-history early return, or `emotions` falsy). -/
structure RiskScore where
  risk_score : ℚ
  level : String
  advice : String
  recommendations : List String
  sentiment_risk : Option ℚ
  emotion_risk : Option ℚ
deriving DecidableEq, Repr

/-- Python truthiness of the `emotions` argument (`None` and `[]` are
falsy). -/
def truthy (emotions : Option (List String)) : Bool :=
  match emotions with
  | none => false
  | some l => !l.isEmpty

/-- The `negative_ref` set of `calculate_risk_score`. -/
def negative_ref : List String :=
  ["negative", "neg", "bad", "sad", "angry", "upset", "unhappy"]

/-- `sentiment_risk` before rounding: fraction of sentiments matching
`negative_ref` under `is_synonym_in_set` (0 when the list is empty). -/
def sentimentRiskRaw (th : Thesaurus) (sentiments : List String) : ℚ :=
  if sentiments.length > 0 then
    (sentiments.countP (fun s => is_synonym_in_set th s negative_ref) : ℚ) / sentiments.length
  else 0

/-- `emotion_risk` before rounding: fraction of emotions matching the
severe-emotion set under `is_synonym_in_set` (0 when `emotions` is falsy). -/
def emotionRiskRaw (th : Thesaurus) (emotions : Option (List String)) : ℚ :=
  if truthy emotions = true ∧ (emotions.getD []).length > 0 then
    ((emotions.getD []).countP (fun e => is_synonym_in_set th e severe_emotions) : ℚ) /
      (emotions.getD []).length
  else 0

/-- `overall_risk` before rounding: the average of the two risks when
`emotions` is truthy, else `sentiment_risk` alone. -/
def overallRaw (th : Thesaurus) (sentiments : List String)
    (emotions : Option (List String)) : ℚ :=
  if truthy emotions = true then
    (sentimentRiskRaw th sentiments + emotionRiskRaw th emotions) / 2
  else sentimentRiskRaw th sentiments

/-- The tier of `calculate_risk_score`, evaluated on the unrounded
overall risk: `>0.7` high, `>0.4` medium, else low. -/
def riskLevel (overall : ℚ) : String :=
  if overall > 7/10 then "high" else if overall > 4/10 then "medium" else "low"

/-- The `advice` string chosen with the tier. -/
def adviceFor (overall : ℚ) : String :=
  if overall > 7/10 then "Immediate attention recommended"
  else if overall > 4/10 then "Monitor closely and consider intervention"
  else "Continue current support level"

/-- The `recommendations` list chosen with the tier. -/
def recsFor (overall : ℚ) : List String :=
  if overall > 7/10 then
    ["Consider professional mental health support",
     "Increase monitoring frequency",
     "Implement immediate coping strategies"]
  else if overall > 4/10 then
    ["Schedule regular check-ins",
     "Practice stress management techniques",
     "Consider talking to a counselor"]
  else
    ["Maintain regular check-ins",
     "Continue current coping strategies"]

/-- The early return of `calculate_risk_score` when both inputs are
empty. -/
def noHistoryResult : RiskScore :=
  ⟨0, "low", "No history to analyze.", ["Continue regular check-ins"], none, none⟩

/-- `calculate_risk_score(sentiments, emotions)` (`app/nlp_services.py`). -/
def calculate_risk_score (th : Thesaurus) (sentiments : List String)
    (emotions : Option (List String)) : RiskScore :=
  let total_sentiments := sentiments.length
  let total_emotions := if truthy emotions = true then (emotions.getD []).length else 0
  if total_sentiments = 0 ∧ total_emotions = 0 then noHistoryResult
  else
    let overall_risk := overallRaw th sentiments emotions
    { risk_score := round2 overall_risk
      level := riskLevel overall_risk
      advice := adviceFor overall_risk
      recommendations := recsFor overall_risk
      sentiment_risk := some (round2 (sentimentRiskRaw th sentiments))
      emotion_risk :=
        if truthy emotions = true then some (round2 (emotionRiskRaw th emotions)) else none }

/-- One per-user session dict of `MentalHealthChatbot`
(`app/advanced_chatbot.py`): `state`, `step`, `context` (opaque
key-value scratch space), `created_at`, `last_activity` (timestamps as
integers, in seconds). -/
structure Session where
  state : String
  step : Nat
  context : List (String × String)
  created_at : Int
  last_activity : Int
deriving DecidableEq, Repr

/-- The analysis snapshot recorded with each turn. -/
structure Analysis where
  sentiment : ClassificationResult
  emotion : ClassificationResult
  distress : DistressResult
deriving DecidableEq, Repr

/-- One entry of `conversation_history` (`_add_to_history`). -/
structure Turn where
  timestamp : Int
  user_message : String
  bot_response : String
  analysis : Analysis
deriving DecidableEq, Repr

/-- The chatbot's mutable state: `self.sessions` and
`self.conversation_history`, as partial maps from user id. -/
structure BotState where
  sessions : String → Option Session
  history : String → Option (List Turn)

/-- `timedelta(hours=24)` in seconds. -/
def hours24 : Int := 24 * 60 * 60

/-- `_initialize_session`: the fresh session dict (state `greeting`,
step 0, empty context, both timestamps now). -/
def freshSession (now : Int) : Session :=
  ⟨"greeting", 0, [], now, now⟩

/-- `_cleanup_old_sessions`: delete every session whose `last_activity`
is strictly older than 24 hours before now, together with that user's
conversation history. -/
def cleanupOldSessions (now : Int) (bot : BotState) : BotState :=
  { sessions := fun u =>
      match bot.sessions u with
      | some s => if s.last_activity < now - hours24 then none else some s
      | none => none
    history := fun u =>
      match bot.sessions u with
      | some s => if s.last_activity < now - hours24 then none else bot.history u
      | none => bot.history u }

/-- `_initialize_session(user_id)`: install the fresh session and an
empty history for the user. -/
def initializeSession (now : Int) (bot : BotState) (user : String) : BotState :=
  { sessions := fun u => if u = user then some (freshSession now) else bot.sessions u
    history := fun u => if u = user then some [] else bot.history u }

/-- `_update_session(user_id, state=st, step=stp)`: update the state and
step and stamp `last_activity`, if the user has a session. -/
def updateSession (now : Int) (bot : BotState) (user : String) (st : String) (stp : Nat) : BotState :=
  { bot with sessions := fun u =>
      if u = user then
        (bot.sessions u).map (fun s => { s with state := st, step := stp, last_activity := now })
      else bot.sessions u }

/-- `_add_to_history(user_id, message, response, analysis)`: append one
turn to the user's history (created empty if missing). -/
def addToHistory (now : Int) (bot : BotState) (user message response : String)
    (analysis : Analysis) : BotState :=
  { bot with history := fun u =>
      if u = user then some (((bot.history u).getD []) ++ [⟨now, message, response, analysis⟩])
      else bot.history u }

/-- `_handle_urgent_distress`: the fixed crisis message. -/
def crisisMessage : String :=
  "I'm concerned about what you're sharing. Your safety is important. " ++
  "Please consider reaching out to a mental health professional or crisis hotline immediately. " ++
  "In the US, you can call 988 for the Suicide & Crisis Lifeline, or text HOME to 741741 for Crisis Text Line. " ++
  "You're not alone, and there are people who want to help. Would you like me to help you find resources?"

/-- `_handle_greeting`: transition to `checking_in` (step 1); the reply
branches on whether the sentiment label is negative-ish. -/
def handleGreeting (now : Int) (bot : BotState) (user : String)
    (sentiment : ClassificationResult) : String × BotState :=
  (if ["negative", "neg"].contains (strLower sentiment.label) = true then
    "Hi. I can sense you might be going through a tough time. I'm here to listen. What's been on your mind?"
   else
    "Hi! I'm here to listen and support you. How are you feeling today?",
   updateSession now bot user "checking_in" 1)

/-- `_handle_checking_in`: to `exploring_feelings` (step 2) when the
sentiment is negative-ish or the emotion is sadness/anger/fear, else to
`providing_support` (step 2). -/
def handleCheckingIn (now : Int) (bot : BotState) (user : String)
    (sentiment emotion : ClassificationResult) : String × BotState :=
  if ["negative", "neg"].contains (strLower sentiment.label) = true ∨
      ["sadness", "anger", "fear"].contains (strLower emotion.label) = true then
    ("I can hear that you're going through a difficult time. " ++
     "It takes courage to share these feelings. Can you tell me more about what's been troubling you?",
     updateSession now bot user "exploring_feelings" 2)
  else
    ("It's good to hear that you're doing okay. " ++
     "Is there anything specific you'd like to talk about or work through today?",
     updateSession now bot user "providing_support" 2)

/-- `_handle_exploring_feelings`: always to `providing_support` (step 3). -/
def handleExploringFeelings (now : Int) (bot : BotState) (user : String) : String × BotState :=
  ("Thank you for sharing that with me. It sounds like you're dealing with a lot right now. How long have you been feeling this way?",
   updateSession now bot user "providing_support" 3)

/-- `_handle_providing_support`: always to `coping_strategies` (step 4);
the reply branches on sentiment score > 0.7. -/
def handleProvidingSupport (now : Int) (bot : BotState) (user : String)
    (sentiment : ClassificationResult) : String × BotState :=
  (if sentiment.score > 7/10 then
    "I can really feel the intensity of what you're experiencing. " ++
    "Remember, it's okay to feel this way, and you're not alone. " ++
    "Would you like to explore some coping strategies that might help?"
   else
    "I appreciate you opening up about this. " ++
    "Sometimes talking about our feelings can help us process them. " ++
    "What would be most helpful for you right now?",
   updateSession now bot user "coping_strategies" 4)

/-- `_handle_coping_strategies`: no session update; fixed reply. -/
def copingStrategiesReply : String :=
  "Here are some strategies that might help: deep breathing, going for a walk, or talking to someone you trust." ++
  " Is there anything specific you'd like to try?"

/-- `_handle_default`: no session update; fixed reply. -/
def defaultReply : String :=
  "I'm here to listen and support you. " ++
  "Can you tell me more about what you're experiencing or what you'd like to work through?"

/-- `get_reply(user_id, message)` (`app/advanced_chatbot.py`): sweep old
sessions, lazily create the user's session, analyze the message, answer
the crisis message when distress is urgent (recording the turn, touching
no session field), otherwise dispatch on the current state, and record
the turn.  Returns the reply together with the new chatbot state. -/
def get_reply (sb eb : Backend) (now : Int) (bot : BotState) (user message : String) :
    String × BotState :=
  let bot1 := cleanupOldSessions now bot
  let bot2 := if (bot1.sessions user) = none then initializeSession now bot1 user else bot1
  let session := (bot2.sessions user).getD (freshSession now)
  let sentiment := analyze_sentiment sb message
  let emotion := analyze_emotion eb message
  let distress := analyze_distress sb eb message
  let analysis : Analysis := ⟨sentiment, emotion, distress⟩
  if distress.is_urgent = true then
    (crisisMessage, addToHistory now bot2 user message crisisMessage analysis)
  else
    let rb : String × BotState :=
      if session.state = "greeting" then handleGreeting now bot2 user sentiment
      else if session.state = "checking_in" then handleCheckingIn now bot2 user sentiment emotion
      else if session.state = "exploring_feelings" then handleExploringFeelings now bot2 user
      else if session.state = "providing_support" then handleProvidingSupport now bot2 user sentiment
      else if session.state = "coping_strategies" then (copingStrategiesReply, bot2)
      else (defaultReply, bot2)
    (rb.1, addToHistory now rb.2 user message rb.1 analysis)

/-- Python `history[-limit:]`: the last `limit` entries. -/
def takeLast (l : List Turn) (limit : Nat) : List Turn :=
  l.drop (l.length - limit)

/-- `get_conversation_history(user_id, limit)`: empty for an unknown
user; the last `limit` turns when `limit` is truthy (nonzero), else the
whole history. -/
def get_conversation_history (bot : BotState) (user : String) (limit : Nat) : List Turn :=
  match bot.history user with
  | none => []
  | some h => if limit ≠ 0 then takeLast h limit else h

/-- `reset_session(user_id)`: drop the user's session and history. -/
def reset_session (bot : BotState) (user : String) : BotState :=
  { sessions := fun u => if u = user then none else bot.sessions u
    history := fun u => if u = user then none else bot.history u }

/-!  Concrete collaborators and states used to instantiate the theorems
below on closed inputs. -/

/-- A thesaurus with no synonyms for any word (WordNet degraded to
literal matching). -/
def emptyTh : Thesaurus := fun _ => []

/-- A thesaurus knowing one fact: "unhappiness" has the synonym
"sadness". -/
def synTh : Thesaurus := fun w => if w = "unhappiness" then ["sadness"] else []

/-- A backend whose every call raises. -/
def errBackend : Backend := fun _ => .error "backend down"

/-- A backend classifying every text as mildly positive. -/
def sentPos : Backend := fun _ => .ok ("positive", 6/10)

/-- A backend classifying every text as the emotion "unhappiness" with
score 0.9. -/
def emoUnhappy : Backend := fun _ => .ok ("unhappiness", 9/10)

/-- A backend classifying every text as the emotion "sadness" with
score 0.9. -/
def emoSad : Backend := fun _ => .ok ("sadness", 9/10)

/-- A turn used as concrete recorded history. -/
def turn0 : Turn :=
  ⟨0, "hi", "hello",
   ⟨⟨"neutral", 1/2, "low", none⟩, ⟨"neutral", 1/2, "low", none⟩,
    ⟨false, "No urgent distress detected.", 1/10, "Continue monitoring"⟩⟩⟩

/-- A chatbot state with one recorded turn for "alice" and no sessions. -/
def botHist : BotState :=
  ⟨fun _ => none, fun u => if u = "alice" then some [turn0] else none⟩

/-- A live session sitting in the `checking_in` state. -/
def sessionChecking : Session := ⟨"checking_in", 1, [], 0, 0⟩

/-- A live session sitting in the `coping_strategies` state. -/
def sessionCoping : Session := ⟨"coping_strategies", 4, [], 0, 0⟩

/-- A session whose state string is not one of the five handled states. -/
def sessionOdd : Session := ⟨"weird", 7, [], 0, 0⟩

/-- A chatbot state holding `sessionChecking` for "alice", with empty
history. -/
def botChecking : BotState :=
  ⟨fun u => if u = "alice" then some sessionChecking else none, fun _ => none⟩

/-- A chatbot state holding `sessionCoping` for "alice". -/
def botCoping : BotState :=
  ⟨fun u => if u = "alice" then some sessionCoping else none, fun _ => none⟩

/-- A chatbot state holding `sessionOdd` for "alice". -/
def botOdd : BotState :=
  ⟨fun u => if u = "alice" then some sessionOdd else none, fun _ => none⟩

/-- Pointwise permutation of optional lists: both absent, or both
present and permutations of each other. -/
def optPerm : Option (List String) → Option (List String) → Prop
  | none, none => True
  | some a, some b => a.Perm b
  | _, _ => False

/-! Theorems. -/

/-- Helper: when some element of a list satisfies `p`, `find?` returns
the first such element in declaration order: the list splits around the
returned element, every earlier element failing `p`. -/
theorem find?_first {α : Type} (p : α → Bool) :
    ∀ l : List α, (∃ x ∈ l, p x = true) →
      ∃ y l1 l2, l.find? p = some y ∧ p y = true ∧ l = l1 ++ y :: l2 ∧
        ∀ z ∈ l1, p z = false := by
  intro l
  induction l with
  | nil => rintro ⟨x, hx, _⟩; cases hx
  | cons a t ih =>
    rintro ⟨x, hx, hpx⟩
    by_cases hpa : p a = true
    · exact ⟨a, [], t, by simp [List.find?, hpa], hpa, rfl, by simp⟩
    · have hxt : x ∈ t := by
        rcases List.mem_cons.mp hx with h | h
        · exact absurd (h ▸ hpx) hpa
        · exact h
      obtain ⟨y, l1, l2, hf, hpy, hsplit, hfirst⟩ := ih ⟨x, hxt, hpx⟩
      refine ⟨y, a :: l1, l2, ?_, hpy, by simp [hsplit], ?_⟩
      · simp [List.find?, Bool.of_not_eq_true hpa, hf]
      · intro z hz
        rcases List.mem_cons.mp hz with h | h
        · exact h ▸ Bool.of_not_eq_true hpa
        · exact hfirst z h

/-- C5: for every input text, when the classification backend raises,
`analyze_sentiment` and `analyze_emotion` do not propagate the
exception but return the neutral default (`label="neutral"`,
`score=0.5`, `confidence="low"`), so every caller receives a
well-formed `ClassificationResult`. -/
theorem C5_neutral_default_on_backend_error (sb eb : Backend) (text e1 e2 : String)
    (hs : sb text = .error e1) (he : eb text = .error e2) :
    (analyze_sentiment sb text).label = "neutral" ∧
    (analyze_sentiment sb text).score = 1/2 ∧
    (analyze_sentiment sb text).confidence = "low" ∧
    (analyze_emotion eb text).label = "neutral" ∧
    (analyze_emotion eb text).score = 1/2 ∧
    (analyze_emotion eb text).confidence = "low" := by
  simp [analyze_sentiment, analyze_emotion, hs, he]

/-- Witness: the failing backend on a concrete text yields the neutral
default. -/
theorem C5_witness :
    (analyze_sentiment errBackend "hi").label = "neutral" ∧
    (analyze_sentiment errBackend "hi").score = 1/2 ∧
    (analyze_sentiment errBackend "hi").confidence = "low" ∧
    (analyze_emotion errBackend "hi").label = "neutral" ∧
    (analyze_emotion errBackend "hi").score = 1/2 ∧
    (analyze_emotion errBackend "hi").confidence = "low" :=
  C5_neutral_default_on_backend_error errBackend errBackend "hi"
    "backend down" "backend down" rfl rfl

/-- C10: `get_conversation_history` with `limit=0` returns the whole
history (zero is treated as "no limit", not "nothing"), and for a user
with no recorded history it returns the empty sequence for every limit. -/
theorem C10_history_zero_limit :
    (∀ (bot : BotState) (user : String) (h : List Turn),
        bot.history user = some h → h ≠ [] →
        get_conversation_history bot user 0 = h) ∧
    (∀ (bot : BotState) (user : String) (limit : Nat),
        bot.history user = none →
        get_conversation_history bot user limit = []) := by
  constructor
  · intro bot user h hh _
    simp [get_conversation_history, hh]
  · intro bot user limit hh
    simp [get_conversation_history, hh]

/-- Witness: one recorded turn for "alice" is returned whole at limit 0;
"bob", with no history, gets the empty sequence at limit 5. -/
theorem C10_witness :
    get_conversation_history botHist "alice" 0 = [turn0] ∧
    get_conversation_history botHist "bob" 5 = [] :=
  ⟨C10_history_zero_limit.1 botHist "alice" [turn0] rfl (by simp),
   C10_history_zero_limit.2 botHist "bob" 5 rfl⟩

/-- C4: whenever the case-folded text contains a configured urgent
phrase, `analyze_distress` returns `is_urgent=true`, `confidence=0.9`,
`recommendation="Seek immediate help"` and a reason naming the first
matching phrase in the list's declaration order (every earlier phrase
fails to match), and the result does not depend on the classifier
backends. -/
theorem C4_keyword_rule (sb eb sb' eb' : Backend) (text k : String)
    (hk : k ∈ urgent_keywords) (hc : strContains (strLower text) k = true) :
    ∃ k0 l1 l2, firstMatch (strLower text) = some k0 ∧
      strContains (strLower text) k0 = true ∧
      urgent_keywords = l1 ++ k0 :: l2 ∧
      (∀ z ∈ l1, strContains (strLower text) z = false) ∧
      analyze_distress sb eb text =
        ⟨true, "Detected urgent keyword: '" ++ k0 ++ "'", 9/10, "Seek immediate help"⟩ ∧
      analyze_distress sb eb text = analyze_distress sb' eb' text := by
  obtain ⟨y, l1, l2, hf, hpy, hsplit, hfirst⟩ :=
    find?_first (fun x => strContains (strLower text) x) urgent_keywords ⟨k, hk, hc⟩
  have hfm : firstMatch (strLower text) = some y := hf
  refine ⟨y, l1, l2, hfm, hpy, hsplit, hfirst, ?_, ?_⟩
  · simp [analyze_distress, hfm]
  · simp [analyze_distress, hfm]

/-- Witness: "I want to KILL Myself!!" matches the phrase
"kill myself" despite casing and punctuation, with both backends
irrelevant (one failing, one succeeding). -/
theorem C4_witness :
    ∃ k0 l1 l2, firstMatch (strLower "I want to KILL Myself!!") = some k0 ∧
      strContains (strLower "I want to KILL Myself!!") k0 = true ∧
      urgent_keywords = l1 ++ k0 :: l2 ∧
      (∀ z ∈ l1, strContains (strLower "I want to KILL Myself!!") z = false) ∧
      analyze_distress errBackend errBackend "I want to KILL Myself!!" =
        ⟨true, "Detected urgent keyword: '" ++ k0 ++ "'", 9/10, "Seek immediate help"⟩ ∧
      analyze_distress errBackend errBackend "I want to KILL Myself!!" =
        analyze_distress sentPos emoSad "I want to KILL Myself!!" :=
  C4_keyword_rule errBackend errBackend sentPos emoSad
    "I want to KILL Myself!!" "kill myself" (by simp [urgent_keywords]) rfl

/-- C2 counterexample: with a thesaurus under which "unhappiness" has
synonym "sadness", the label "unhappiness" is a synonym-aware member of
the severe-emotion set (`is_synonym_in_set` is true) and the emotion
score 0.9 exceeds the 0.85 threshold, no urgent keyword matches and the
sentiment rule does not fire — yet `analyze_distress` returns
`is_urgent=false`: step 3 uses literal list membership, not the
synonym-aware check. -/
theorem C2_counterexample :
    is_synonym_in_set synTh "unhappiness" severe_emotions = true ∧
    severe_emotions.contains (strLower "unhappiness") = false ∧
    (9:ℚ)/10 > distress_confidence_threshold ∧
    firstMatch (strLower "hello") = none ∧
    (analyze_emotion emoUnhappy "hello").label = "unhappiness" ∧
    (analyze_emotion emoUnhappy "hello").score = 9/10 ∧
    (analyze_sentiment sentPos "hello").label = "positive" ∧
    (analyze_distress sentPos emoUnhappy "hello").is_urgent = false := by
  refine ⟨rfl, rfl, ?_, rfl, rfl, rfl, rfl, rfl⟩
  norm_num [distress_confidence_threshold]

/-- C2 amended: in step 3 of distress detection (no keyword matched and
the sentiment rule did not fire), the lowercased emotion label is
tested for literal membership in the configured severe-emotion list (no
synonym expansion, unlike the risk aggregator), and with score above
0.85 it yields `is_urgent=true` and `confidence=score`. -/
theorem C2_amended_literal_severe_emotion (sb eb : Backend) (text l : String) (sc : ℚ)
    (hkw : firstMatch (strLower text) = none)
    (heb : eb text = .ok (l, sc))
    (hsent : ¬ (["negative", "neg"].contains (strLower (analyze_sentiment sb text).label) = true ∧
      (analyze_sentiment sb text).score > 9/10))
    (hl : severe_emotions.contains (strLower l) = true)
    (hsc : sc > distress_confidence_threshold) :
    (analyze_distress sb eb text).is_urgent = true ∧
    (analyze_distress sb eb text).confidence = sc := by
  have he : analyze_emotion eb text = ⟨l, sc, confBucket sc, none⟩ := by
    simp [analyze_emotion, heb]
  rw [analyze_distress, hkw]
  simp only [he]
  rw [if_neg hsent, if_pos ⟨hl, hsc⟩]
  exact ⟨rfl, rfl⟩

/-- Witness for the amended C2: emotion "sadness" (literally in the
list) at score 0.9, mildly positive sentiment, no keyword: urgent with
confidence 0.9. -/
theorem C2_witness :
    (analyze_distress sentPos emoSad "hello").is_urgent = true ∧
    (analyze_distress sentPos emoSad "hello").confidence = 9/10 :=
  C2_amended_literal_severe_emotion sentPos emoSad "hello" "sadness" (9/10)
    rfl rfl (by decide) rfl (by norm_num [distress_confidence_threshold])

/-- C6 counterexample: with both classifier calls failing and no
keyword match, `analyze_distress` does fall through to a non-urgent
result, but the reason is the plain "No urgent distress detected." and
does not record the classifier error (the exceptions are swallowed
inside `analyze_sentiment`/`analyze_emotion` before `analyze_distress`
can see them). -/
theorem C6_counterexample :
    (errBackend "hello") = .error "backend down" ∧
    analyze_distress errBackend errBackend "hello" =
      ⟨false, "No urgent distress detected.", 1/10, "Continue monitoring"⟩ ∧
    strContains (analyze_distress errBackend errBackend "hello").reason "backend down" = false :=
  ⟨rfl, rfl, rfl⟩

/-- C6 amended: if both classifier calls fail during steps 2/3 and no
keyword matched, `analyze_distress` does not abort: the failed
classifications act as non-matches (neutral defaults) and the result is
the step-4 default `is_urgent=false`, `confidence=0.1`,
`reason="No urgent distress detected."` — the classifier error is not
surfaced in the reason. -/
theorem C6_amended_failure_falls_through (sb eb : Backend) (text e1 e2 : String)
    (hkw : firstMatch (strLower text) = none)
    (hs : sb text = .error e1) (he : eb text = .error e2) :
    analyze_distress sb eb text =
      ⟨false, "No urgent distress detected.", 1/10, "Continue monitoring"⟩ := by
  have hsent : analyze_sentiment sb text = ⟨"neutral", 1/2, "low", some e1⟩ := by
    simp [analyze_sentiment, hs]
  have hemo : analyze_emotion eb text = ⟨"neutral", 1/2, "low", some e2⟩ := by
    simp [analyze_emotion, he]
  rw [analyze_distress, hkw]
  simp only [hsent, hemo]
  rw [if_neg (by decide), if_neg (by decide)]

/-- Witness: concrete failing backends on "hello". -/
theorem C6_witness :
    analyze_distress errBackend errBackend "hello" =
      ⟨false, "No urgent distress detected.", 1/10, "Continue monitoring"⟩ :=
  C6_amended_failure_falls_through errBackend errBackend "hello"
    "backend down" "backend down" rfl rfl rfl

/-- Helper: for `sentiments = ["negative","negative","positive"]` and
absent emotions, under any thesaurus that does not relate "positive" to
the negative reference set, `calculate_risk_score` returns 0.67/medium. -/
theorem risk_negnegpos (th : Thesaurus)
    (hpos : is_synonym_in_set th "positive" negative_ref = false) :
    calculate_risk_score th ["negative", "negative", "positive"] none =
      ⟨67/100, "medium", "Monitor closely and consider intervention",
       ["Schedule regular check-ins", "Practice stress management techniques",
        "Consider talking to a counselor"], some (67/100), none⟩ := by
  have hneg : is_synonym_in_set th "negative" negative_ref = true := rfl
  have hc : (["negative", "negative", "positive"].countP
      (fun s => is_synonym_in_set th s negative_ref)) = 2 := by
    simp [List.countP_cons, hneg, hpos]
  have hs : sentimentRiskRaw th ["negative", "negative", "positive"] = 2/3 := by
    rw [sentimentRiskRaw, if_pos (by norm_num), hc]
    norm_num
  have hov : overallRaw th ["negative", "negative", "positive"] none = 2/3 := by
    rw [overallRaw, if_neg (by simp [truthy])]
    exact hs
  have hr : round2 ((2:ℚ)/3) = 67/100 := by
    have hfloor : ⌊(2:ℚ)/3 * 100⌋ = 66 := by norm_num
    simp only [round2, roundHalfEven, hfloor]
    norm_num
  have hlev : riskLevel ((2:ℚ)/3) = "medium" := by
    rw [riskLevel, if_neg (by norm_num), if_pos (by norm_num)]
  have hadv : adviceFor ((2:ℚ)/3) = "Monitor closely and consider intervention" := by
    rw [adviceFor, if_neg (by norm_num), if_pos (by norm_num)]
  have hrec : recsFor ((2:ℚ)/3) =
      ["Schedule regular check-ins", "Practice stress management techniques",
       "Consider talking to a counselor"] := by
    rw [recsFor, if_neg (by norm_num), if_pos (by norm_num)]
  rw [calculate_risk_score]
  simp only [hov, hs, hr, hlev, hadv, hrec, truthy]
  norm_num

/-- C3 counterexample: for `sentiments=["negative","negative","positive"]`
and absent emotions (here under the literal-only thesaurus), the
aggregator returns `sentiment_risk=0.67` and `risk_score=0.67` as the
claim states, but `level="medium"`, not `"high"`: the unrounded overall
risk 2/3 is not greater than the 0.7 high threshold. -/
theorem C3_counterexample :
    (calculate_risk_score emptyTh ["negative", "negative", "positive"] none).sentiment_risk =
      some (67/100) ∧
    (calculate_risk_score emptyTh ["negative", "negative", "positive"] none).risk_score =
      67/100 ∧
    (calculate_risk_score emptyTh ["negative", "negative", "positive"] none).level =
      "medium" ∧
    (calculate_risk_score emptyTh ["negative", "negative", "positive"] none).level ≠
      "high" := by
  rw [risk_negnegpos emptyTh rfl]
  refine ⟨rfl, rfl, rfl, by simp⟩

/-- C3 amended: for `sentiments=["negative","negative","positive"]` with
emotions absent (and a thesaurus not relating "positive" to the
negative set), `calculate_risk_score` returns `sentiment_risk=0.67`,
overall `risk_score=0.67`, and `level="medium"` (2/3 exceeds the 0.4
medium threshold but not the 0.7 high threshold). -/
theorem C3_amended_scenario_is_medium (th : Thesaurus)
    (hpos : is_synonym_in_set th "positive" negative_ref = false) :
    calculate_risk_score th ["negative", "negative", "positive"] none =
      ⟨67/100, "medium", "Monitor closely and consider intervention",
       ["Schedule regular check-ins", "Practice stress management techniques",
        "Consider talking to a counselor"], some (67/100), none⟩ :=
  risk_negnegpos th hpos

/-- Witness: the literal-only thesaurus instantiation. -/
theorem C3_witness :
    calculate_risk_score emptyTh ["negative", "negative", "positive"] none =
      ⟨67/100, "medium", "Monitor closely and consider intervention",
       ["Schedule regular check-ins", "Practice stress management techniques",
        "Consider talking to a counselor"], some (67/100), none⟩ :=
  C3_amended_scenario_is_medium emptyTh rfl

/-- C7: whenever there is history (at least one sentiment, or a truthy
emotions list), the tier and the advice/recommendations returned by
`calculate_risk_score` are chosen by comparing the unrounded overall
risk against 0.7 and 0.4 (strictly), while the returned `risk_score`,
`sentiment_risk` and `emotion_risk` are the unrounded ratios rounded to
2 decimals: rounding happens only at the output boundary and never
affects the tier. -/
theorem C7_unrounded_thresholds (th : Thesaurus) (s : List String)
    (e : Option (List String))
    (hne : ¬ (s.length = 0 ∧ (if truthy e = true then (e.getD []).length else 0) = 0)) :
    (calculate_risk_score th s e).level = riskLevel (overallRaw th s e) ∧
    (calculate_risk_score th s e).advice = adviceFor (overallRaw th s e) ∧
    (calculate_risk_score th s e).recommendations = recsFor (overallRaw th s e) ∧
    (calculate_risk_score th s e).risk_score = round2 (overallRaw th s e) ∧
    (calculate_risk_score th s e).sentiment_risk = some (round2 (sentimentRiskRaw th s)) ∧
    (calculate_risk_score th s e).emotion_risk =
      (if truthy e = true then some (round2 (emotionRiskRaw th e)) else none) := by
  simp only [calculate_risk_score]
  rw [if_neg hne]
  exact ⟨rfl, rfl, rfl, rfl, rfl, rfl⟩

/-- Witness: one negative sentiment, emotions absent. -/
theorem C7_witness :
    (calculate_risk_score emptyTh ["negative"] none).level =
      riskLevel (overallRaw emptyTh ["negative"] none) ∧
    (calculate_risk_score emptyTh ["negative"] none).advice =
      adviceFor (overallRaw emptyTh ["negative"] none) ∧
    (calculate_risk_score emptyTh ["negative"] none).recommendations =
      recsFor (overallRaw emptyTh ["negative"] none) ∧
    (calculate_risk_score emptyTh ["negative"] none).risk_score =
      round2 (overallRaw emptyTh ["negative"] none) ∧
    (calculate_risk_score emptyTh ["negative"] none).sentiment_risk =
      some (round2 (sentimentRiskRaw emptyTh ["negative"])) ∧
    (calculate_risk_score emptyTh ["negative"] none).emotion_risk =
      (if truthy none = true then some (round2 (emotionRiskRaw emptyTh none)) else none) :=
  C7_unrounded_thresholds emptyTh ["negative"] none (by simp)

/-- Helper: `calculate_risk_score` only reads its list inputs through
lengths, truthiness and predicate counts. -/
theorem calc_risk_congr (th : Thesaurus) (s s' : List String)
    (e e' : Option (List String))
    (hlen : s.length = s'.length)
    (hcnt : s.countP (fun x => is_synonym_in_set th x negative_ref) =
      s'.countP (fun x => is_synonym_in_set th x negative_ref))
    (htr : truthy e = truthy e')
    (helen : (e.getD []).length = (e'.getD []).length)
    (hecnt : (e.getD []).countP (fun x => is_synonym_in_set th x severe_emotions) =
      (e'.getD []).countP (fun x => is_synonym_in_set th x severe_emotions)) :
    calculate_risk_score th s e = calculate_risk_score th s' e' := by
  have h1 : sentimentRiskRaw th s = sentimentRiskRaw th s' := by
    rw [sentimentRiskRaw, sentimentRiskRaw, hlen, hcnt]
  have h2 : emotionRiskRaw th e = emotionRiskRaw th e' := by
    rw [emotionRiskRaw, emotionRiskRaw, htr, helen, hecnt]
  have h3 : overallRaw th s e = overallRaw th s' e' := by
    rw [overallRaw, overallRaw, htr, h1, h2]
  rw [calculate_risk_score, calculate_risk_score, htr, hlen, helen, h3, h1, h2]

/-- C8: the risk aggregator is a pure function of the multiset of its
inputs — permuting either list leaves the result unchanged — and on
empty inputs (emotions absent, or present and empty: both are falsy) it
returns the fixed no-history result. -/
theorem C8_perm_invariant_and_empty :
    (∀ (th : Thesaurus) (s s' : List String) (e e' : Option (List String)),
        s.Perm s' → optPerm e e' →
        calculate_risk_score th s e = calculate_risk_score th s' e') ∧
    (∀ th : Thesaurus, calculate_risk_score th [] none = noHistoryResult) ∧
    (∀ th : Thesaurus, calculate_risk_score th [] (some []) = noHistoryResult) := by
  refine ⟨?_, fun th => rfl, fun th => rfl⟩
  intro th s s' e e' hp hop
  cases e with
  | none =>
    cases e' with
    | none =>
      exact calc_risk_congr th s s' none none hp.length_eq
        (hp.countP_eq _) rfl rfl rfl
    | some b => exact absurd hop (by simp [optPerm])
  | some a =>
    cases e' with
    | none => exact absurd hop (by simp [optPerm])
    | some b =>
      have hab : a.Perm b := hop
      have htr : truthy (some a) = truthy (some b) := by
        cases a with
        | nil => cases b with
          | nil => rfl
          | cons x xs => exact absurd hab.length_eq (by simp)
        | cons x xs => cases b with
          | nil => exact absurd hab.length_eq (by simp)
          | cons y ys => rfl
      exact calc_risk_congr th s s' (some a) (some b) hp.length_eq
        (hp.countP_eq _) htr hab.length_eq (hab.countP_eq _)

/-- Witness: swapping the two sentiments leaves the result unchanged,
and the empty call returns the fixed no-history result. -/
theorem C8_witness :
    calculate_risk_score emptyTh ["negative", "positive"] none =
      calculate_risk_score emptyTh ["positive", "negative"] none ∧
    calculate_risk_score emptyTh [] none = noHistoryResult :=
  ⟨C8_perm_invariant_and_empty.1 emptyTh ["negative", "positive"]
      ["positive", "negative"] none none
      (List.Perm.swap "positive" "negative" []) trivial,
   C8_perm_invariant_and_empty.2.1 emptyTh⟩

/-- C1: when the distress detector flags the message as urgent, and the
user's session is live (present and not past the 24-hour expiry),
`get_reply` returns the fixed crisis message, the session (state, step
and all other fields) is exactly as before the turn, and the turn —
message, crisis reply, analysis snapshot — is still appended to that
user's conversation history. -/
theorem C1_crisis_precedence (sb eb : Backend) (now : Int) (bot : BotState)
    (user message : String) (s : Session)
    (hs : bot.sessions user = some s)
    (hlive : ¬ s.last_activity < now - hours24)
    (hurg : (analyze_distress sb eb message).is_urgent = true) :
    (get_reply sb eb now bot user message).1 = crisisMessage ∧
    (get_reply sb eb now bot user message).2.sessions user = some s ∧
    (get_reply sb eb now bot user message).2.history user =
      some ((bot.history user).getD [] ++
        [⟨now, message, crisisMessage,
          ⟨analyze_sentiment sb message, analyze_emotion eb message,
           analyze_distress sb eb message⟩⟩]) := by
  have h1 : (cleanupOldSessions now bot).sessions user = some s := by
    simp [cleanupOldSessions, hs, hlive]
  have h1h : (cleanupOldSessions now bot).history user = bot.history user := by
    simp [cleanupOldSessions, hs, hlive]
  simp only [get_reply, h1, h1h, hurg]
  simp [addToHistory, h1, h1h]

/-- Witness: "alice" in `checking_in`, message "I feel hopeless"
(keyword match): crisis reply, untouched session, recorded turn. -/
theorem C1_witness :
    (get_reply errBackend errBackend 100 botChecking "alice" "I feel hopeless").1 =
      crisisMessage ∧
    (get_reply errBackend errBackend 100 botChecking "alice" "I feel hopeless").2.sessions
      "alice" = some sessionChecking ∧
    (get_reply errBackend errBackend 100 botChecking "alice" "I feel hopeless").2.history
      "alice" =
      some ((botChecking.history "alice").getD [] ++
        [⟨100, "I feel hopeless", crisisMessage,
          ⟨analyze_sentiment errBackend "I feel hopeless",
           analyze_emotion errBackend "I feel hopeless",
           analyze_distress errBackend errBackend "I feel hopeless"⟩⟩]) :=
  C1_crisis_precedence errBackend errBackend 100 botChecking "alice" "I feel hopeless"
    sessionChecking rfl (by decide) rfl

/-- C9: a turn handled in the `coping_strategies` state, a turn handled
by the default fallback (unrecognized state), and a turn answered with
the urgent-distress crisis response leave the user's session — all
fields, `last_activity` included — exactly unchanged; and the expiry
sweep deletes a session (with its history) exactly when its
`last_activity` is more than 24 hours old, so continuous activity in
those cases does not postpone deletion. -/
theorem C9_no_refresh_and_expiry :
    (∀ (sb eb : Backend) (now : Int) (bot : BotState) (user message : String) (s : Session),
        bot.sessions user = some s →
        ¬ s.last_activity < now - hours24 →
        ((analyze_distress sb eb message).is_urgent = true ∨
         ((analyze_distress sb eb message).is_urgent = false ∧
          (s.state = "coping_strategies" ∨
           (s.state ≠ "greeting" ∧ s.state ≠ "checking_in" ∧
            s.state ≠ "exploring_feelings" ∧ s.state ≠ "providing_support" ∧
            s.state ≠ "coping_strategies")))) →
        (get_reply sb eb now bot user message).2.sessions user = some s) ∧
    (∀ (now : Int) (bot : BotState) (user : String) (s : Session),
        bot.sessions user = some s →
        s.last_activity < now - hours24 →
        (cleanupOldSessions now bot).sessions user = none ∧
        (cleanupOldSessions now bot).history user = none) := by
  constructor
  · intro sb eb now bot user message s hs hlive hcase
    have h1 : (cleanupOldSessions now bot).sessions user = some s := by
      simp [cleanupOldSessions, hs, hlive]
    rcases hcase with hurg | ⟨hnurg, hstate⟩
    · simp only [get_reply, h1, hurg]
      simp [addToHistory, h1]
    · rcases hstate with hcop | ⟨hg, hc, he, hp, hco⟩
      · simp only [get_reply, h1, hnurg]
        simp [addToHistory, h1, hcop]
      · simp only [get_reply, h1, hnurg]
        simp [addToHistory, h1, hg, hc, he, hp, hco]
  · intro now bot user s hs hexp
    constructor
    · simp [cleanupOldSessions, hs, hexp]
    · simp [cleanupOldSessions, hs, hexp]

/-- Witness: a live `coping_strategies` session survives a non-urgent
turn untouched, and an idle session (last activity 0, now 100000) is
deleted by the sweep together with its history. -/
theorem C9_witness :
    (get_reply sentPos emoUnhappy 100 botCoping "alice" "hello").2.sessions "alice" =
      some sessionCoping ∧
    (cleanupOldSessions 100000 botCoping).sessions "alice" = none ∧
    (cleanupOldSessions 100000 botCoping).history "alice" = none :=
  ⟨C9_no_refresh_and_expiry.1 sentPos emoUnhappy 100 botCoping "alice" "hello"
      sessionCoping rfl (by decide) (Or.inr ⟨rfl, Or.inl rfl⟩),
   (C9_no_refresh_and_expiry.2 100000 botCoping "alice" sessionCoping rfl (by decide)).1,
   (C9_no_refresh_and_expiry.2 100000 botCoping "alice" sessionCoping rfl (by decide)).2⟩
